import Mathlib

/-!
Shallow embedding of `src/lightcap.py` (class `Lightcurve`): frame catalog
construction, aperture configuration, flux extraction and the differential
magnitude computation, together with theorems settling the frozen claims.

Modelling conventions:
* Python float values are modelled as real numbers (`ℝ`); `numpy.log10` is
  `Real.logb 10`.
* The external collaborators are parameters: the filesystem answer to
  `glob.glob` is a `List String` argument of `construct`; the header field
  `JD` is a total function `String → ℝ` (every header is assumed to carry the
  field, as in every state the claims touch); `photutils.aperture_photometry`
  is a function `Aperture → String → ℕ → ℝ` giving the column-3 flux entry of
  row `idx` of the photometry table of one frame.
* Methods of the Python class mutate `self` in place and signal problems
  either by printing a message and returning (leaving the object untouched)
  or by raising an uncaught exception (also before any attribute mutation, in
  every branch present in the source).  Both are modelled uniformly: every
  method returns `Lightcurve × Option Err`, where the first component is the
  object after the call and the second is `some e` exactly when the source
  prints the corresponding diagnostic or raises the corresponding exception.
  In each such branch of the source no attribute is assigned before the
  print/raise, so the returned state is the input state unchanged.
* Reads `xs[i]` of a Python list inside the magnitude loops are modelled by
  `List.getD xs i 0`; every state reached in the theorems below keeps those
  reads in range, where Python and the model agree.
-/

namespace Lightcap

/-- Outcomes the source signals: the three printed diagnostics
(`invalidPosition`, `configuration`, `reExtraction` — the spec's
`InvalidPositionError`, `ConfigurationError`, `ReExtractionError`) and the
uncaught Python exceptions the source can raise (`IndexError` from
`position[0]` on an empty list, `AttributeError` from reading a never-assigned
attribute such as `self.path`, `UnboundLocalError` from the final assignment
of `differential_magnitude` when the method is not recognised, `TypeError`
from indexing a float — the last is unreachable through the public calls). -/
inductive Err where
  | invalidPosition
  | configuration
  | reExtraction
  | indexError
  | attributeError
  | unboundLocal
  | typeError
  deriving DecidableEq

/-- A Python position argument: either a tuple of coordinates or a list of
coordinate lists (the source distinguishes them with `type(position)`). -/
inductive PosArg where
  | tup (coords : List ℝ)
  | lst (entries : List (List ℝ))

/-- Model of `photutils.CircularAperture(position, r=radius)`. -/
structure Aperture where
  positions : PosArg
  r : ℝ

/-- The value of `self.reference`: a flat list of fluxes when one reference
is configured, a list of per-reference lists when several are. -/
inductive RefSeries where
  | flat (xs : List ℝ)
  | multi (xss : List (List ℝ))

/-- The attributes of a `Lightcurve` object.  Attributes the source only
creates inside certain methods (`target_aperture`, `reference_aperture`,
`number_of_references`, `target_name`, `reference_name`, `target_magnitude`,
`reference_magnitude`) are `Option`s, `none` meaning the attribute does not
exist yet (reading it would raise `AttributeError`). -/
structure Lightcurve where
  fits_list : List String
  hdu_list : List String
  jd_axis : List ℝ
  target : List ℝ
  target_pos : Option PosArg
  target_aperture : Option Aperture
  target_name : Option String
  reference : RefSeries
  reference_pos : Option PosArg
  reference_aperture : Option Aperture
  reference_name : Option String
  number_of_references : Option ℕ
  target_magnitude : Option (List ℝ)
  reference_magnitude : Option RefSeries

/-- The freshly initialised object: discovered files (already sorted), one
HDU per file in the same order, the `JD` header values in the same order, and
the flux/configuration attributes exactly as `__init__` sets them. -/
def freshState (files : List String) (jd : String → ℝ) : Lightcurve :=
  { fits_list := files
    hdu_list := files
    jd_axis := files.map jd
    target := []
    target_pos := none
    target_aperture := none
    target_name := none
    reference := RefSeries.flat []
    reference_pos := none
    reference_aperture := none
    reference_name := none
    number_of_references := none
    target_magnitude := none
    reference_magnitude := none }

/-- Model of `Lightcurve.__init__`.  When the path contains a glob wildcard
(the test `"*" in path`, i.e. the character `*` occurs among the path's
characters) the glob answer is sorted (Python `list.sort`, lexicographic on
strings) and the catalog is built from it.  When it does not, the source
evaluates `os.path.join(self.path, "*.fit")` — but `self.path` is never
assigned anywhere in the class, so the read raises `AttributeError` before
any other work happens.  The `os.chdir` call is an effect on the process,
not on the object, and is not modelled. -/
def construct (path : String) (globResults : List String) (jd : String → ℝ) :
    Except Err Lightcurve :=
  if '*' ∈ path.data then
    Except.ok (freshState (List.insertionSort (· ≤ ·) globResults) jd)
  else
    Except.error Err.attributeError

/-- Model of `Lightcurve.set_target`.  A tuple of exactly two coordinates is
accepted: the position, the aperture and (when given) the name are stored and
`self.target` is reset to the empty list.  Anything else only prints the
usage message and leaves the object untouched.  Note the source resets only
`self.target`, not `self.reference`. -/
def set_target (s : Lightcurve) (position : PosArg) (radius : ℝ)
    (name : Option String) : Lightcurve × Option Err :=
  match position with
  | PosArg.tup cs =>
      if cs.length = 2 then
        ({ s with
            target_pos := some (PosArg.tup cs)
            target_aperture := some ⟨PosArg.tup cs, radius⟩
            target_name := if name.isSome then name else s.target_name
            target := [] }, none)
      else (s, some Err.invalidPosition)
  | PosArg.lst _ => (s, some Err.invalidPosition)

/-- Model of `Lightcurve.set_reference`.  A two-coordinate tuple configures a
single reference (`number_of_references = 1`, flat series reset to `[]`).  A
list is probed with `len(position[0])`, which on the empty list raises
`IndexError` before anything is stored; when the first entry has length two
(the source checks only the first entry) the list configures
`len(position)` references and resets the series to that many empty lists.
Anything else only prints the usage message.  Note the source resets only
`self.reference`, not `self.target`. -/
def set_reference (s : Lightcurve) (position : PosArg) (radius : ℝ)
    (name : Option String) : Lightcurve × Option Err :=
  match position with
  | PosArg.tup cs =>
      if cs.length = 2 then
        ({ s with
            number_of_references := some 1
            reference_pos := some (PosArg.tup cs)
            reference_aperture := some ⟨PosArg.tup cs, radius⟩
            reference_name := if name.isSome then name else s.reference_name
            reference := RefSeries.flat [] }, none)
      else (s, some Err.invalidPosition)
  | PosArg.lst ps =>
      match ps with
      | [] => (s, some Err.indexError)
      | p0 :: _ =>
          if p0.length = 2 then
            ({ s with
                number_of_references := some ps.length
                reference_pos := some (PosArg.lst ps)
                reference_aperture := some ⟨PosArg.lst ps, radius⟩
                reference := RefSeries.multi (List.replicate ps.length [])
                reference_name :=
                  if name.isSome then name else s.reference_name }, none)
          else (s, some Err.invalidPosition)

/-- Append one flux value to the row of each reference: the source's
`for r in range(len(self.reference)): self.reference[r].append(...)`. -/
def appendAt (f : ℕ → ℝ) : ℕ → List (List ℝ) → List (List ℝ)
  | _, [] => []
  | r, xs :: xss => (xs ++ [f r]) :: appendAt f (r + 1) xss

/-- Append a single flux value to a flat series (`self.reference.append(...)`
in the one-reference branch).  The `multi` case is unreachable: the source
only takes this branch when `number_of_references == 1`, and then
`self.reference` is a flat list. -/
def RefSeries.appendFlat (x : ℝ) : RefSeries → RefSeries
  | RefSeries.flat xs => RefSeries.flat (xs ++ [x])
  | RefSeries.multi xss => RefSeries.multi xss

/-- Append one value per reference row (the multi-reference branch of the
extraction loop).  The `flat` case is unreachable: the source only takes this
branch when `number_of_references > 1`, and then `self.reference` is a list
of lists. -/
def RefSeries.appendEach (f : ℕ → ℝ) : RefSeries → RefSeries
  | RefSeries.flat xs => RefSeries.flat xs
  | RefSeries.multi xss => RefSeries.multi (appendAt f 0 xss)

/-- One iteration of the extraction loop of `read_apertures`: append the
target flux of this frame, then the reference flux(es) according to
`number_of_references`. -/
def extractFrame (phot : Aperture → String → ℕ → ℝ) (tap rap : Aperture)
    (n : ℕ) (s : Lightcurve) (i : String) : Lightcurve :=
  let s1 := { s with target := s.target ++ [phot tap i 0] }
  if n = 1 then
    { s1 with reference := s1.reference.appendFlat (phot rap i 0) }
  else if 1 < n then
    { s1 with reference := s1.reference.appendEach (fun r => phot rap i r) }
  else s1

/-- The full extraction pass: the loop `for i in self.hdu_list` of
`read_apertures`. -/
def extractLoop (phot : Aperture → String → ℕ → ℝ) (tap rap : Aperture)
    (n : ℕ) (s : Lightcurve) (hdus : List String) : Lightcurve :=
  hdus.foldl (extractFrame phot tap rap n) s

/-- Model of `Lightcurve.read_apertures`.  The guards are exactly the
source's: unconfigured target or reference prints the configuration message;
a non-empty `self.target` prints the re-extraction message; otherwise the
extraction loop runs over every HDU.  The aperture and count attributes are
necessarily present whenever the corresponding position is set (they are
assigned together by `set_target` / `set_reference`), so the
`attributeError` fallback of the match is unreachable through the public
calls. -/
def read_apertures (phot : Aperture → String → ℕ → ℝ) (s : Lightcurve) :
    Lightcurve × Option Err :=
  if s.target_pos.isNone || s.reference_pos.isNone then
    (s, some Err.configuration)
  else if s.target.isEmpty then
    match s.target_aperture, s.reference_aperture, s.number_of_references with
    | some tap, some rap, some n =>
        (extractLoop phot tap rap n s s.hdu_list, none)
    | _, _, _ => (s, some Err.attributeError)
  else
    (s, some Err.reExtraction)

/-- The source's `np.log10`. -/
noncomputable def log10 (x : ℝ) : ℝ := Real.logb 10 x

/-- The expression `(-2.5)*np.log10(x/y)` the source computes for every
magnitude entry. -/
noncomputable def diffMag (x y : ℝ) : ℝ := (-2.5) * log10 (x / y)

/-- The per-frame average of the multi-reference branch:
`values = [self.reference[r][i] for r ...]; sum(values)/len(values)`. -/
noncomputable def colAvg (xss : List (List ℝ)) (i : ℕ) : ℝ :=
  (xss.map (fun row => row.getD i 0)).sum / (xss.length : ℝ)

/-- Rewrite the entries of a list by their index, starting the count at `k`.
Used to express the in-place writes `lst[i] = f(i, lst[i])` of the magnitude
loops, which touch exactly the indices `0 ≤ i < len(self.target)`. -/
def mapIdxFrom (f : ℕ → ℝ → ℝ) : ℕ → List ℝ → List ℝ
  | _, [] => []
  | k, x :: xs => f k x :: mapIdxFrom f (k + 1) xs

/-- Model of `Lightcurve.differential_magnitude`.

For an unrecognised method the `if method == 'average'` block is skipped
entirely, so the final statement `self.target_magnitude = target_diff_mag`
reads a local variable that was never assigned and raises
`UnboundLocalError`; no attribute is modified.

For `'average'` the source first evaluates `self.target.copy()` and
`self.reference.copy()`.  Both copies are shallow.  For the target and for a
single flat reference the elements are floats, so the loops that assign into
the copies leave `self.target` and `self.reference` untouched.  For several
references the copy shares its row lists with `self.reference`, so the writes
`reference_diff_mag[r][i] = ...` also overwrite the reference flux in place:
the state after the call carries the magnitude rows as `reference`.  Within
the iteration for frame `i` every read (`values`, `avg_value`,
`self.reference[r][i]`) happens at index `i` before the writes at index `i`,
and earlier iterations only wrote indices below `i`, so each written entry is
`(-2.5)*log10(original flux / average of original fluxes)` — the formulas
below therefore use only the original `xss`.

The final `n = 0` fallback (both number tests false) cannot arise through
the public calls, since `set_reference` always records a count of at least
one; it assigns the raw copies, as the source would. -/
noncomputable def differential_magnitude (s : Lightcurve) (method : String) :
    Lightcurve × Option Err :=
  if method = "average" then
    match s.number_of_references with
    | none => (s, some Err.attributeError)
    | some n =>
        let tlen := s.target.length
        if n = 1 then
          match s.reference with
          | RefSeries.flat xs =>
              let tmag := (List.range tlen).map
                (fun i => diffMag (s.target.getD i 0) (xs.getD i 0))
              let rmag := mapIdxFrom
                (fun i x => if i < tlen then diffMag x x else x) 0 xs
              ({ s with
                  target_magnitude := some tmag
                  reference_magnitude := some (RefSeries.flat rmag) }, none)
          | RefSeries.multi _ => (s, some Err.typeError)
        else if 1 < n then
          match s.reference with
          | RefSeries.multi xss =>
              let tmag := (List.range tlen).map
                (fun i => diffMag (s.target.getD i 0) (colAvg xss i))
              let rows := xss.map (fun row =>
                mapIdxFrom
                  (fun i x => if i < tlen then diffMag x (colAvg xss i) else x)
                  0 row)
              ({ s with
                  reference := RefSeries.multi rows
                  target_magnitude := some tmag
                  reference_magnitude := some (RefSeries.multi rows) }, none)
          | RefSeries.flat _ => (s, some Err.typeError)
        else
          ({ s with
              target_magnitude := some s.target
              reference_magnitude := some s.reference }, none)
  else
    (s, some Err.unboundLocal)

/-! ### Helper lemmas about the extraction loop and the index map -/

/-- One extraction step as a single record update: only `target` and
`reference` change. -/
theorem extractFrame_eq (phot : Aperture → String → ℕ → ℝ) (tap rap : Aperture)
    (n : ℕ) (s : Lightcurve) (i : String) :
    extractFrame phot tap rap n s i =
      { s with
          target := s.target ++ [phot tap i 0]
          reference :=
            if n = 1 then s.reference.appendFlat (phot rap i 0)
            else if 1 < n then s.reference.appendEach (fun r => phot rap i r)
            else s.reference } := by
  unfold extractFrame
  by_cases h1 : n = 1 <;> by_cases h2 : 1 < n <;> simp [h1, h2]

/-- The extraction loop appends exactly one target flux per HDU. -/
theorem extractLoop_target (phot : Aperture → String → ℕ → ℝ)
    (tap rap : Aperture) (n : ℕ) :
    ∀ (hdus : List String) (s : Lightcurve),
      (extractLoop phot tap rap n s hdus).target =
        s.target ++ hdus.map (fun i => phot tap i 0)
  | [], s => by simp [extractLoop]
  | i :: is, s => by
      have ih := extractLoop_target phot tap rap n is (extractFrame phot tap rap n s i)
      simp only [extractLoop, List.foldl_cons] at ih ⊢
      rw [ih, extractFrame_eq]
      simp

/-- The extraction loop never touches the configuration attributes or the
catalog. -/
theorem extractLoop_config (phot : Aperture → String → ℕ → ℝ)
    (tap rap : Aperture) (n : ℕ) :
    ∀ (hdus : List String) (s : Lightcurve),
      (extractLoop phot tap rap n s hdus).target_pos = s.target_pos ∧
      (extractLoop phot tap rap n s hdus).reference_pos = s.reference_pos ∧
      (extractLoop phot tap rap n s hdus).target_aperture = s.target_aperture ∧
      (extractLoop phot tap rap n s hdus).reference_aperture = s.reference_aperture ∧
      (extractLoop phot tap rap n s hdus).number_of_references = s.number_of_references ∧
      (extractLoop phot tap rap n s hdus).fits_list = s.fits_list ∧
      (extractLoop phot tap rap n s hdus).hdu_list = s.hdu_list
  | [], s => by simp [extractLoop]
  | i :: is, s => by
      have ih := extractLoop_config phot tap rap n is (extractFrame phot tap rap n s i)
      simp only [extractLoop, List.foldl_cons] at ih ⊢
      rw [extractFrame_eq] at ih ⊢
      exact ih

/-- `mapIdxFrom` preserves the length. -/
theorem mapIdxFrom_length (f : ℕ → ℝ → ℝ) :
    ∀ (k : ℕ) (xs : List ℝ), (mapIdxFrom f k xs).length = xs.length
  | _, [] => rfl
  | k, _ :: xs => by simp [mapIdxFrom, mapIdxFrom_length f (k + 1) xs]

/-- Entry `i` of `mapIdxFrom f k xs` is `f (k + i)` of entry `i` of `xs`. -/
theorem mapIdxFrom_getD (f : ℕ → ℝ → ℝ) :
    ∀ (k : ℕ) (xs : List ℝ) (i : ℕ), i < xs.length →
      (mapIdxFrom f k xs).getD i 0 = f (k + i) (xs.getD i 0)
  | _, [], i, h => by simp at h
  | k, x :: xs, 0, _ => by simp [mapIdxFrom]
  | k, x :: xs, i + 1, h => by
      have ih := mapIdxFrom_getD f (k + 1) xs i (by simpa using h)
      simp only [mapIdxFrom, List.getD_cons_succ]
      rw [ih]
      congr 1
      omega

/-- Entry `i` of `(List.range n).map f` is `f i`, for `i < n`. -/
theorem getD_map_range (f : ℕ → ℝ) {n i : ℕ} (h : i < n) :
    (((List.range n).map f).getD i 0) = f i := by
  have hl : i < ((List.range n).map f).length := by simpa using h
  rw [List.getD_eq_getElem _ _ hl]
  simp

/-- The catalog of a successfully constructed object is sorted ascending in
the string order. -/
theorem construct_sorted (path : String) (g : List String) (jd : String → ℝ)
    (s : Lightcurve) (h : construct path g jd = Except.ok s) :
    List.Sorted (· ≤ ·) s.fits_list := by
  unfold construct at h
  split at h
  · cases h
    exact List.sorted_insertionSort _ g
  · cases h

/-- `read_apertures` never changes the file catalog. -/
theorem read_apertures_fits (phot : Aperture → String → ℕ → ℝ)
    (s : Lightcurve) :
    (read_apertures phot s).1.fits_list = s.fits_list := by
  unfold read_apertures
  split
  · rfl
  · split
    · split
      · exact (extractLoop_config _ _ _ _ _ _).2.2.2.2.2.1
      · rfl
    · rfl

/-- `differential_magnitude` never changes the file catalog. -/
theorem differential_magnitude_fits (s : Lightcurve) (m : String) :
    (differential_magnitude s m).1.fits_list = s.fits_list := by
  unfold differential_magnitude
  split
  · split
    · rfl
    · split
      · split <;> rfl
      · split
        · split <;> rfl
        · rfl
  · rfl

/-! ### Concrete inputs used by the claim theorems -/

/-- A header reader assigning Julian Date `0` to every frame. -/
def jd0 : String → ℝ := fun _ => 0

/-- A photometry collaborator reporting flux `7` for every aperture, frame
and table row. -/
def phot7 : Aperture → String → ℕ → ℝ := fun _ _ _ => 7

/-! ### String-order facts for the catalog-ordering example -/

theorem not_le_f10_f1 : ¬ ("f10" : String) ≤ "f1" := by
  simp only [String.le_iff_toList_le]
  decide

theorem not_le_f2_f1 : ¬ ("f2" : String) ≤ "f1" := by
  simp only [String.le_iff_toList_le]
  decide

theorem not_le_f2_f10 : ¬ ("f2" : String) ≤ "f10" := by
  simp only [String.le_iff_toList_le]
  decide

/-- Sorting the example file names `f2, f10, f1` of the spec yields the
plain lexicographic order, not the numeric one. -/
theorem sort_example :
    List.insertionSort (· ≤ ·) ["f2", "f10", "f1"] = ["f1", "f10", "f2"] := by
  simp [List.insertionSort, List.orderedInsert, not_le_f10_f1, not_le_f2_f1,
    not_le_f2_f10]
  decide

/-! ### Claim theorems -/

/-- C3: for every method value other than `"average"`, the call leaves the
object unchanged — but the failure is an `UnboundLocalError` raised by the
final assignment (the local `target_diff_mag` was never bound), not an
explicit `UnsupportedMethodError`; the source has no such check at all. -/
theorem compute_unknown_method_unbound (s : Lightcurve) (method : String)
    (h : method ≠ "average") :
    differential_magnitude s method = (s, some Err.unboundLocal) := by
  unfold differential_magnitude
  rw [if_neg h]

/-- Witness for C3: calling with method `"median"` on a fresh object raises
the unbound-local failure and modifies nothing. -/
theorem compute_unknown_method_unbound_witness :
    ("median" : String) ≠ "average" ∧
      differential_magnitude (freshState ["a"] jd0) "median" =
        (freshState ["a"] jd0, some Err.unboundLocal) :=
  ⟨by decide, compute_unknown_method_unbound (freshState ["a"] jd0) "median" (by decide)⟩

/-- The state after configuring a target on a one-frame catalog. -/
def c4s1 : Lightcurve :=
  (set_target (freshState ["a"] jd0) (PosArg.tup [1, 2]) 3 none).1

/-- The state after additionally configuring a single reference. -/
def c4s2 : Lightcurve := (set_reference c4s1 (PosArg.tup [5, 6]) 3 none).1

/-- The state after a successful extraction: target flux `[7]`, reference
flux `[7]`. -/
def c4s3 : Lightcurve := (read_apertures phot7 c4s2).1

/-- C4: refuted on the code.  In the extracted state `c4s3`, a `set_target`
call with a valid position succeeds and resets the target flux — but it
leaves the reference flux series fully populated (`[7]`, not empty), so
reconfiguring the target does not invalidate the entire extraction state of
the epoch. -/
theorem set_target_keeps_reference_flux :
    construct "d/*" ["a"] jd0 = Except.ok (freshState ["a"] jd0) ∧
    (set_target (freshState ["a"] jd0) (PosArg.tup [1, 2]) 3 none).2 = none ∧
    (set_reference c4s1 (PosArg.tup [5, 6]) 3 none).2 = none ∧
    (read_apertures phot7 c4s2).2 = none ∧
    c4s3.target = [7] ∧
    c4s3.reference = RefSeries.flat [7] ∧
    (set_target c4s3 (PosArg.tup [9, 9]) 3 none).2 = none ∧
    (set_target c4s3 (PosArg.tup [9, 9]) 3 none).1.target = [] ∧
    (set_target c4s3 (PosArg.tup [9, 9]) 3 none).1.reference = RefSeries.flat [7] ∧
    RefSeries.flat ([7] : List ℝ) ≠ RefSeries.flat [] := by
  refine ⟨rfl, rfl, rfl, rfl, rfl, rfl, rfl, rfl, rfl, ?_⟩
  simp

/-- Extracted one-frame state for the length-invariant claim. -/
def c5s3 : Lightcurve :=
  (read_apertures phot7
    ((set_reference
      ((set_target (freshState ["a"] jd0) (PosArg.tup [1, 2]) 3 none).1)
      (PosArg.tup [5, 6]) 3 none).1)).1

/-- The same state after reconfiguring the target (which empties only the
target flux). -/
def c5s4 : Lightcurve := (set_target c5s3 (PosArg.tup [1, 2]) 3 none).1

/-- C5: refuted on the code.  Reconfiguring the target after an extraction
and extracting again succeeds (the guard checks only the target series), and
the completed second extraction leaves a reference flux series of length 2
on a catalog of 1 frame: a reachable extracted state violating
`len(FluxSeries) == frameCount`. -/
theorem reextraction_breaks_length_invariant :
    c5s3.target = [7] ∧
    c5s3.reference = RefSeries.flat [7] ∧
    (set_target c5s3 (PosArg.tup [1, 2]) 3 none).2 = none ∧
    c5s4.target = [] ∧
    c5s4.reference = RefSeries.flat [7] ∧
    (read_apertures phot7 c5s4).2 = none ∧
    (read_apertures phot7 c5s4).1.target = [7] ∧
    (read_apertures phot7 c5s4).1.reference = RefSeries.flat [7, 7] ∧
    (read_apertures phot7 c5s4).1.fits_list.length = 1 ∧
    ([7, 7] : List ℝ).length ≠ (read_apertures phot7 c5s4).1.fits_list.length := by
  exact ⟨rfl, rfl, rfl, rfl, rfl, rfl, rfl, rfl, rfl, by decide⟩

/-- Configured state over an empty catalog (a glob that matched no file). -/
def c6s2 : Lightcurve :=
  (set_reference
    ((set_target (freshState [] jd0) (PosArg.tup [1, 2]) 3 none).1)
    (PosArg.tup [5, 6]) 3 none).1

/-- C6 counterexample: on an empty catalog the first extraction completes
(vacuously), and a second `extract()` with no reconfiguration in between
also returns without any error — the re-extraction guard checks emptiness of
the target series, which stays empty, so no `ReExtractionError` is raised. -/
theorem second_extract_empty_catalog_no_error :
    construct "d/*" [] jd0 = Except.ok (freshState [] jd0) ∧
    (read_apertures phot7 c6s2).2 = none ∧
    (read_apertures phot7 (read_apertures phot7 c6s2).1).2 = none ∧
    (read_apertures phot7 (read_apertures phot7 c6s2).1).2 ≠
      some Err.reExtraction := by
  exact ⟨rfl, rfl, rfl, fun h => Option.noConfusion h⟩

/-- C6 (amended): from a configured, not-yet-extracted state over a
*non-empty* catalog, extraction succeeds, and a second `extract()` call
without reconfiguration signals the re-extraction failure and returns the
state completely unchanged. -/
theorem second_extract_reextraction_error
    (phot : Aperture → String → ℕ → ℝ) (s0 : Lightcurve)
    (tap rap : Aperture) (n : ℕ)
    (h1 : s0.target_pos.isNone = false)
    (h2 : s0.reference_pos.isNone = false)
    (h3 : s0.target = [])
    (h4 : s0.target_aperture = some tap)
    (h5 : s0.reference_aperture = some rap)
    (h6 : s0.number_of_references = some n)
    (h7 : s0.hdu_list ≠ []) :
    (read_apertures phot s0).2 = none ∧
      read_apertures phot (read_apertures phot s0).1 =
        ((read_apertures phot s0).1, some Err.reExtraction) := by
  obtain ⟨p1, p2, p3, p4, p5, p6, p7⟩ :=
    extractLoop_config phot tap rap n s0.hdu_list s0
  have htar := extractLoop_target phot tap rap n s0.hdu_list s0
  have hie : (extractLoop phot tap rap n s0 s0.hdu_list).target.isEmpty = false := by
    rw [htar, h3]
    cases hl : s0.hdu_list
    · exact absurd hl h7
    · simp
  have hred : read_apertures phot s0 =
      (extractLoop phot tap rap n s0 s0.hdu_list, none) := by
    simp [read_apertures, h1, h2, h3, h4, h5, h6]
  refine ⟨by rw [hred], ?_⟩
  rw [hred]
  simp only []
  unfold read_apertures
  rw [p1, p2, h1, h2, hie]
  simp

/-- The concrete configured one-frame state for the C6 witness. -/
def c6w : Lightcurve :=
  (set_reference
    ((set_target (freshState ["a"] jd0) (PosArg.tup [1, 2]) 3 none).1)
    (PosArg.tup [5, 6]) 3 none).1

/-- Witness for the amended C6 on a one-frame catalog. -/
theorem second_extract_reextraction_error_witness :
    c6w.target_pos.isNone = false ∧
    c6w.reference_pos.isNone = false ∧
    c6w.target = [] ∧
    c6w.target_aperture = some ⟨PosArg.tup [1, 2], 3⟩ ∧
    c6w.reference_aperture = some ⟨PosArg.tup [5, 6], 3⟩ ∧
    c6w.number_of_references = some 1 ∧
    c6w.hdu_list ≠ [] ∧
    ((read_apertures phot7 c6w).2 = none ∧
      read_apertures phot7 (read_apertures phot7 c6w).1 =
        ((read_apertures phot7 c6w).1, some Err.reExtraction)) :=
  ⟨rfl, rfl, rfl, rfl, rfl, rfl, by decide,
    second_extract_reextraction_error phot7 c6w ⟨PosArg.tup [1, 2], 3⟩
      ⟨PosArg.tup [5, 6], 3⟩ 1 rfl rfl rfl rfl rfl rfl (by decide)⟩

/-- C8: refuted on the code.  For every input path without a glob wildcard,
construction reads `self.path`, an attribute that is never assigned, and so
always fails with `AttributeError`: the input is never treated as a
directory and no default pattern is appended. -/
theorem construct_without_wildcard_fails (path : String)
    (h : '*' ∉ path.data) (g : List String) (jd : String → ℝ) :
    construct path g jd = Except.error Err.attributeError := by
  unfold construct
  rw [if_neg h]

/-- Witness for C8 at the wildcard-free path `/data/lights`. -/
theorem construct_without_wildcard_fails_witness :
    '*' ∉ ("/data/lights" : String).data ∧
      construct "/data/lights" [] jd0 = Except.error Err.attributeError :=
  ⟨by decide, construct_without_wildcard_fails "/data/lights" (by decide) [] jd0⟩

/-- C9: the catalog of every successfully constructed object is sorted
ascending in the plain string order; none of the four public operations ever
changes it afterwards; and the spec's example `f2, f10, f1` is enumerated as
`f1, f10, f2` (lexicographic, not numeric). -/
theorem catalog_sorted_and_stable :
    (∀ (path : String) (g : List String) (jd : String → ℝ) (s : Lightcurve),
        construct path g jd = Except.ok s → List.Sorted (· ≤ ·) s.fits_list) ∧
    (∀ (s : Lightcurve) (p : PosArg) (r : ℝ) (nm : Option String),
        (set_target s p r nm).1.fits_list = s.fits_list) ∧
    (∀ (s : Lightcurve) (p : PosArg) (r : ℝ) (nm : Option String),
        (set_reference s p r nm).1.fits_list = s.fits_list) ∧
    (∀ (phot : Aperture → String → ℕ → ℝ) (s : Lightcurve),
        (read_apertures phot s).1.fits_list = s.fits_list) ∧
    (∀ (s : Lightcurve) (m : String),
        (differential_magnitude s m).1.fits_list = s.fits_list) ∧
    construct "d/*" ["f2", "f10", "f1"] jd0 =
      Except.ok (freshState ["f1", "f10", "f2"] jd0) := by
  refine ⟨construct_sorted, ?_, ?_, read_apertures_fits,
    differential_magnitude_fits, ?_⟩
  · intro s p r nm
    cases p
    · simp only [set_target]
      split <;> rfl
    · rfl
  · intro s p r nm
    cases p with
    | tup cs =>
        simp only [set_reference]
        split <;> rfl
    | lst ps =>
        cases ps
        · rfl
        · simp only [set_reference]
          split <;> rfl
  · have hc : '*' ∈ ("d/*" : String).data := by decide
    unfold construct
    rw [if_pos hc, sort_example]

/-- Witness for C9: the catalog built from the example files is sorted. -/
theorem catalog_sorted_and_stable_witness :
    List.Sorted (· ≤ ·) (freshState ["f1", "f10", "f2"] jd0).fits_list :=
  catalog_sorted_and_stable.1 "d/*" ["f2", "f10", "f1"] jd0
    (freshState ["f1", "f10", "f2"] jd0) catalog_sorted_and_stable.2.2.2.2.2

/-- C10: calling `set_reference` with the empty list as position raises an
uncaught `IndexError` (from `len(position[0])` on the empty list), not the
printed invalid-position diagnostic, and the returned object is unchanged:
no reference position, count or flux series is stored. -/
theorem set_reference_empty_list_index_error (s : Lightcurve) (radius : ℝ)
    (name : Option String) :
    set_reference s (PosArg.lst []) radius name = (s, some Err.indexError) :=
  rfl


/-- Evaluation of the `'average'` branch for a single configured reference:
the copies are honest (floats only), so the object keeps its flux series and
only gains the two magnitude attributes. -/
theorem differential_magnitude_single (s : Lightcurve) (xs : List ℝ)
    (hn : s.number_of_references = some 1)
    (href : s.reference = RefSeries.flat xs) :
    differential_magnitude s "average" =
      ({ s with
          target_magnitude := some ((List.range s.target.length).map
            (fun i => diffMag (s.target.getD i 0) (xs.getD i 0)))
          reference_magnitude := some (RefSeries.flat (mapIdxFrom
            (fun i x => if i < s.target.length then diffMag x x else x)
            0 xs)) }, none) := by
  unfold differential_magnitude
  rw [hn, href]
  simp

/-- Evaluation of the `'average'` branch for `R > 1` references: the shallow
`self.reference.copy()` shares the row lists, so besides gaining the two
magnitude attributes the object's `reference` flux is overwritten with the
magnitude rows. -/
theorem differential_magnitude_multi (s : Lightcurve) (xss : List (List ℝ))
    (R : ℕ) (hR : 1 < R)
    (hn : s.number_of_references = some R)
    (href : s.reference = RefSeries.multi xss) :
    differential_magnitude s "average" =
      ({ s with
          reference := RefSeries.multi (xss.map (fun row =>
            mapIdxFrom (fun i x =>
              if i < s.target.length then diffMag x (colAvg xss i) else x)
              0 row))
          target_magnitude := some ((List.range s.target.length).map
            (fun i => diffMag (s.target.getD i 0) (colAvg xss i)))
          reference_magnitude := some (RefSeries.multi (xss.map (fun row =>
            mapIdxFrom (fun i x =>
              if i < s.target.length then diffMag x (colAvg xss i) else x)
              0 row))) }, none) := by
  have hR1 : ¬ R = 1 := by omega
  unfold differential_magnitude
  rw [hn, href]
  simp [hR1, hR]

/-- Reading every index of a list in order reproduces the list. -/
theorem map_range_getD {α : Type} (l : List α) (d : α) :
    (List.range l.length).map (fun i => l.getD i d) = l := by
  induction l with
  | nil => simp
  | cons x xs ih =>
      have hfun : ((fun i => (x :: xs).getD i d) ∘ Nat.succ) =
          fun i => xs.getD i d := by
        funext i
        simp
      rw [List.length_cons, List.range_succ_eq_map, List.map_cons, List.map_map,
        hfun, ih]
      rfl

/-- Row `r` of a mapped list of rows, read with a default. -/
theorem getD_map_list (g : List ℝ → List ℝ) (xss : List (List ℝ)) (r : ℕ)
    (h : r < xss.length) :
    (xss.map g).getD r [] = g (xss.getD r []) := by
  have h2 : r < (xss.map g).length := by simpa using h
  rw [List.getD_eq_getElem _ _ h2, List.getD_eq_getElem _ _ h, List.getElem_map]

/-- The per-frame average as an explicit sum over the reference indices:
exactly `sum(values)/len(values)` of the source with
`values = [self.reference[r][i] for r in range(len(self.reference))]`. -/
theorem colAvg_eq_range (xss : List (List ℝ)) (i : ℕ) :
    colAvg xss i =
      ((List.range xss.length).map (fun r => (xss.getD r []).getD i 0)).sum /
        (xss.length : ℝ) := by
  unfold colAvg
  congr 2
  have hcomp : (fun r => (xss.getD r []).getD i 0) =
      (fun row : List ℝ => row.getD i 0) ∘ (fun r => xss.getD r []) := rfl
  rw [hcomp, ← List.map_map, map_range_getD]

/-- C1: for every configuration with `R > 1` references, on a state shaped
as a successful extraction leaves it (every series of length `frameCount`),
`compute('average')` succeeds and produces a target magnitude series of
length `frameCount` with `targetMag[i] = -2.5*log10(target[i]/avg[i])`, and
`R` reference magnitude rows of length `frameCount` with
`referenceMag[r][i] = -2.5*log10(reference[r][i]/avg[i])`, where `avg[i]` is
the arithmetic mean over `r` of `reference[r][i]` (last conjunct).  All
formulas read the original flux: within frame `i` the source reads index `i`
before overwriting it, so the aliasing of the shallow copy does not alter
the computed values. -/
theorem compute_average_multi (s : Lightcurve) (xss : List (List ℝ)) (R : ℕ)
    (hR : 1 < R)
    (hn : s.number_of_references = some R)
    (href : s.reference = RefSeries.multi xss)
    (hxl : xss.length = R)
    (hrow : ∀ row ∈ xss, row.length = s.fits_list.length)
    (ht : s.target.length = s.fits_list.length) :
    ∃ tmag rows,
      differential_magnitude s "average" =
        ({ s with
            reference := RefSeries.multi rows
            target_magnitude := some tmag
            reference_magnitude := some (RefSeries.multi rows) }, none) ∧
      tmag.length = s.fits_list.length ∧
      rows.length = R ∧
      (∀ row ∈ rows, row.length = s.fits_list.length) ∧
      (∀ i < s.fits_list.length,
        tmag.getD i 0 =
          (-2.5) * Real.logb 10 (s.target.getD i 0 / colAvg xss i)) ∧
      (∀ r < R, ∀ i < s.fits_list.length,
        (rows.getD r []).getD i 0 =
          (-2.5) * Real.logb 10 ((xss.getD r []).getD i 0 / colAvg xss i)) ∧
      (∀ i, colAvg xss i =
        ((List.range R).map (fun r => (xss.getD r []).getD i 0)).sum / (R : ℝ)) := by
  refine ⟨_, _, differential_magnitude_multi s xss R hR hn href, ?_, ?_, ?_, ?_, ?_, ?_⟩
  · simp [ht]
  · simp [hxl]
  · intro row hr
    obtain ⟨row0, hr0, rfl⟩ := List.mem_map.mp hr
    rw [mapIdxFrom_length]
    exact hrow row0 hr0
  · intro i hi
    rw [getD_map_range _ (by omega : i < s.target.length)]
    rfl
  · intro r hr i hi
    have hrx : r < xss.length := by omega
    rw [getD_map_list _ _ _ hrx]
    have hmem : xss.getD r [] ∈ xss := by
      rw [List.getD_eq_getElem _ _ hrx]
      exact List.getElem_mem hrx
    have hil : i < (xss.getD r []).length := by
      rw [hrow _ hmem]
      exact hi
    rw [mapIdxFrom_getD _ _ _ _ hil]
    simp only [Nat.zero_add]
    rw [if_pos (by omega : i < s.target.length)]
    rfl
  · intro i
    rw [colAvg_eq_range, hxl]

/-- C7: for every single-reference configuration with strictly positive
fluxes, `compute('average')` produces `referenceMag[i] = 0` for every frame
and `targetMag[i] = -2.5*log10(target[i]/reference[i])`. -/
theorem compute_average_single_ref (s : Lightcurve) (xs : List ℝ)
    (hn : s.number_of_references = some 1)
    (href : s.reference = RefSeries.flat xs)
    (hxl : xs.length = s.fits_list.length)
    (ht : s.target.length = s.fits_list.length)
    (hpos : ∀ x ∈ xs, 0 < x)
    (_hpt : ∀ x ∈ s.target, 0 < x) :
    ∃ tmag rmag,
      differential_magnitude s "average" =
        ({ s with
            target_magnitude := some tmag
            reference_magnitude := some (RefSeries.flat rmag) }, none) ∧
      tmag.length = s.fits_list.length ∧
      rmag.length = s.fits_list.length ∧
      (∀ i < s.fits_list.length, rmag.getD i 0 = 0) ∧
      (∀ i < s.fits_list.length,
        tmag.getD i 0 =
          (-2.5) * Real.logb 10 (s.target.getD i 0 / xs.getD i 0)) := by
  refine ⟨_, _, differential_magnitude_single s xs hn href, ?_, ?_, ?_, ?_⟩
  · simp [ht]
  · rw [mapIdxFrom_length, hxl]
  · intro i hi
    have hil : i < xs.length := by omega
    rw [mapIdxFrom_getD _ _ _ _ hil]
    simp only [Nat.zero_add]
    rw [if_pos (by omega : i < s.target.length)]
    have hmem : xs.getD i 0 ∈ xs := by
      rw [List.getD_eq_getElem _ _ hil]
      exact List.getElem_mem hil
    have hx : xs.getD i 0 ≠ 0 := ne_of_gt (hpos _ hmem)
    unfold diffMag log10
    rw [div_self hx, Real.logb_one, mul_zero]
  · intro i hi
    rw [getD_map_range _ (by omega : i < s.target.length)]
    rfl

/-- Photometry collaborator for the C2 refutation: flux 20 for the target
aperture (built from a tuple), 10 for every reference row. -/
def photC2 : Aperture → String → ℕ → ℝ := fun ap _ _ =>
  match ap.positions with
  | PosArg.tup _ => 20
  | PosArg.lst _ => 10

/-- Configured two-reference state over a one-frame catalog. -/
def c2cfg : Lightcurve :=
  (set_reference
    ((set_target (freshState ["a"] jd0) (PosArg.tup [1, 2]) 3 none).1)
    (PosArg.lst [[3, 4], [5, 6]]) 3 none).1

/-- The same state after a successful extraction: target flux `[20]`,
reference flux `[[10], [10]]`. -/
def c2s : Lightcurve := (read_apertures photC2 c2cfg).1

/-- C2: refuted on the code in the multi-reference shape.  On the reachable
extracted state `c2s`, `compute('average')` succeeds but overwrites the
reference `FluxSeries` in place (`[[10], [10]]` becomes the magnitude rows
`[[0], [0]]`, because `self.reference.copy()` is shallow and the row lists
are shared), and a second `compute('average')` on the resulting state
produces a different target `MagnitudeSeries` than the first. -/
theorem compute_average_mutates_reference_flux :
    (read_apertures photC2 c2cfg).2 = none ∧
    c2s.target = [20] ∧
    c2s.reference = RefSeries.multi [[10], [10]] ∧
    (differential_magnitude c2s "average").2 = none ∧
    (differential_magnitude c2s "average").1.reference =
      RefSeries.multi [[0], [0]] ∧
    (differential_magnitude c2s "average").1.reference ≠ c2s.reference ∧
    (differential_magnitude
        (differential_magnitude c2s "average").1 "average").1.target_magnitude ≠
      (differential_magnitude c2s "average").1.target_magnitude := by
  have key := differential_magnitude_multi c2s [[10], [10]] 2 (by norm_num) rfl rfl
  have havg : colAvg ([[10], [10]] : List (List ℝ)) 0 = 10 := by
    simp [colAvg]
  have hdm : diffMag 10 10 = 0 := by
    norm_num [diffMag, log10]
  have hlen : c2s.target.length = 1 := rfl
  have hrows : ([[10], [10]] : List (List ℝ)).map (fun row =>
      mapIdxFrom (fun i x =>
        if i < c2s.target.length then diffMag x (colAvg [[10], [10]] i) else x)
        0 row) = [[0], [0]] := by
    simp [mapIdxFrom, hlen, havg, hdm]
  have htar : c2s.target = [20] := rfl
  have htm : (List.range c2s.target.length).map
      (fun i => diffMag (c2s.target.getD i 0) (colAvg [[10], [10]] i)) =
      [(-2.5) * Real.logb 10 2] := by
    rw [hlen, htar]
    simp [List.range_succ, havg, diffMag, log10]
    left
    norm_num
  have href1 : (differential_magnitude c2s "average").1.reference =
      RefSeries.multi [[0], [0]] := by
    rw [key]
    simp only [hrows]
  have hn1 : (differential_magnitude c2s "average").1.number_of_references =
      some 2 := by
    rw [key]
    rfl
  have htar1 : (differential_magnitude c2s "average").1.target = [20] := by
    rw [key]
    exact htar
  have htm1 : (differential_magnitude c2s "average").1.target_magnitude =
      some [(-2.5) * Real.logb 10 2] := by
    rw [key]
    simp only [htm]
  have key2 := differential_magnitude_multi
    (differential_magnitude c2s "average").1 [[0], [0]] 2 (by norm_num) hn1 href1
  have havg0 : colAvg ([[0], [0]] : List (List ℝ)) 0 = 0 := by
    simp [colAvg]
  have hlogpos : (0 : ℝ) < Real.logb 10 2 :=
    Real.logb_pos (by norm_num) (by norm_num)
  have htm2 : (differential_magnitude
      (differential_magnitude c2s "average").1 "average").1.target_magnitude =
      some [0] := by
    rw [key2, htar1]
    simp [List.range_succ, havg0, diffMag, log10]
  refine ⟨rfl, rfl, rfl, by rw [key], href1, ?_, ?_⟩
  · rw [href1, show c2s.reference = RefSeries.multi [[10], [10]] from rfl]
    intro hcon
    simp only [RefSeries.multi.injEq, List.cons.injEq, and_true] at hcon
    norm_num at hcon
  · rw [htm2, htm1]
    simp only [ne_eq, Option.some.injEq, List.cons.injEq, and_true]
    intro hcon
    have hne : (-2.5) * Real.logb 10 2 < 0 :=
      mul_neg_of_neg_of_pos (by norm_num) hlogpos
    exact ne_of_lt hne hcon.symm


/-- Photometry collaborator for the C1 witness: flux 100 for the target
aperture (built from a tuple), 50 and 150 for the two reference rows. -/
def photC1 : Aperture → String → ℕ → ℝ := fun ap _ i =>
  match ap.positions with
  | PosArg.tup _ => 100
  | PosArg.lst _ => if i = 0 then 50 else 150

/-- A reachable two-reference extracted state: one frame, target flux 100,
reference fluxes 50 and 150. -/
def c1w : Lightcurve :=
  (read_apertures photC1
    ((set_reference
      ((set_target (freshState ["a"] jd0) (PosArg.tup [1, 2]) 3 none).1)
      (PosArg.lst [[3, 4], [5, 6]]) 3 none).1)).1

/-- Witness for C1 at the concrete two-reference state `c1w`. -/
theorem compute_average_multi_witness :
    (1 < 2) ∧
    c1w.number_of_references = some 2 ∧
    c1w.reference = RefSeries.multi [[50], [150]] ∧
    ([[50], [150]] : List (List ℝ)).length = 2 ∧
    (∀ row ∈ ([[50], [150]] : List (List ℝ)),
      row.length = c1w.fits_list.length) ∧
    c1w.target.length = c1w.fits_list.length ∧
    (∃ tmag rows,
      differential_magnitude c1w "average" =
        ({ c1w with
            reference := RefSeries.multi rows
            target_magnitude := some tmag
            reference_magnitude := some (RefSeries.multi rows) }, none) ∧
      tmag.length = c1w.fits_list.length ∧
      rows.length = 2 ∧
      (∀ row ∈ rows, row.length = c1w.fits_list.length) ∧
      (∀ i < c1w.fits_list.length,
        tmag.getD i 0 =
          (-2.5) * Real.logb 10
            (c1w.target.getD i 0 / colAvg [[50], [150]] i)) ∧
      (∀ r < 2, ∀ i < c1w.fits_list.length,
        (rows.getD r []).getD i 0 =
          (-2.5) * Real.logb 10
            ((([[50], [150]] : List (List ℝ)).getD r []).getD i 0 /
              colAvg [[50], [150]] i)) ∧
      (∀ i, colAvg [[50], [150]] i =
        ((List.range 2).map
          (fun r => (([[50], [150]] : List (List ℝ)).getD r []).getD i 0)).sum /
          (2 : ℝ))) :=
  ⟨by norm_num, rfl, rfl, rfl,
    by
      intro row hr
      simp only [List.mem_cons, List.not_mem_nil, or_false] at hr
      rcases hr with rfl | rfl <;> rfl,
    rfl,
    compute_average_multi c1w [[50], [150]] 2 (by norm_num) rfl rfl rfl
      (by
        intro row hr
        simp only [List.mem_cons, List.not_mem_nil, or_false] at hr
        rcases hr with rfl | rfl <;> rfl)
      rfl⟩

/-- A reachable single-reference extracted state: one frame, flux 7 for
both roles. -/
def c7w : Lightcurve :=
  (read_apertures phot7
    ((set_reference
      ((set_target (freshState ["a"] jd0) (PosArg.tup [1, 2]) 3 none).1)
      (PosArg.tup [5, 6]) 3 none).1)).1

/-- Witness for C7 at the concrete single-reference state `c7w`. -/
theorem compute_average_single_ref_witness :
    c7w.number_of_references = some 1 ∧
    c7w.reference = RefSeries.flat [7] ∧
    ([7] : List ℝ).length = c7w.fits_list.length ∧
    c7w.target.length = c7w.fits_list.length ∧
    (∀ x ∈ ([7] : List ℝ), 0 < x) ∧
    (∀ x ∈ c7w.target, 0 < x) ∧
    (∃ tmag rmag,
      differential_magnitude c7w "average" =
        ({ c7w with
            target_magnitude := some tmag
            reference_magnitude := some (RefSeries.flat rmag) }, none) ∧
      tmag.length = c7w.fits_list.length ∧
      rmag.length = c7w.fits_list.length ∧
      (∀ i < c7w.fits_list.length, rmag.getD i 0 = 0) ∧
      (∀ i < c7w.fits_list.length,
        tmag.getD i 0 =
          (-2.5) * Real.logb 10
            (c7w.target.getD i 0 / ([7] : List ℝ).getD i 0))) :=
  ⟨rfl, rfl, rfl, rfl,
    by
      intro x hx
      simp only [List.mem_singleton] at hx
      rw [hx]
      norm_num,
    by
      intro x hx
      rw [show c7w.target = [7] from rfl] at hx
      simp only [List.mem_singleton] at hx
      rw [hx]
      norm_num,
    compute_average_single_ref c7w [7] rfl rfl rfl rfl
      (by
        intro x hx
        simp only [List.mem_singleton] at hx
        rw [hx]
        norm_num)
      (by
        intro x hx
        rw [show c7w.target = [7] from rfl] at hx
        simp only [List.mem_singleton] at hx
        rw [hx]
        norm_num)⟩

end Lightcap
